import Mathlib

/-!
Verification development for the Congolese-Swahili TODS ontology pipeline.

This file gives a shallow embedding, over `List Char` strings, of the two
core modules of the repository:

  * `actions/ontology_population.py` — entity recognition, entity-to-RDF
    mapping, relationship linking, and triple-store synchronization;
  * `actions/query_builder.py` — SPARQL query templates, query building,
    and result formatting.

Python strings are embedded as `List Char`; Python dicts as association
lists; the RDF graph (rdflib `Graph`) as a `Finset` of triples (rdflib
graphs have set semantics: `Graph.add` of an existing triple is a no-op).
Python `str.find`'s `-1` sentinel is embedded as `Option Nat` (`none`).
Code that can raise a Python exception is embedded in `Except`.
-/

/-- Python `str.lower()` (per-character lowering, as used on ASCII data). -/
def pyLower (s : List Char) : List Char := s.map Char.toLower

/-- Fuel-driven worker for `pyReplace`; the fuel is the haystack length,
which bounds the recursion since every step consumes at least one
haystack character when the pattern is non-empty. -/
def pyReplaceAux : Nat → List Char → List Char → List Char → List Char
  | 0, hay, _, _ => hay
  | _ + 1, [], _, _ => []
  | n + 1, h :: t, pat, rep =>
    if pat ≠ [] ∧ pat.isPrefixOf (h :: t) then
      rep ++ pyReplaceAux n (List.drop pat.length (h :: t)) pat rep
    else
      h :: pyReplaceAux n t pat rep

/-- Python `hay.replace(pat, rep)` for non-empty `pat` (every call site in
the source uses a non-empty pattern). -/
def pyReplace (hay pat rep : List Char) : List Char :=
  pyReplaceAux hay.length hay pat rep

/-- Python `hay.find(needle)`, with the `-1` sentinel embedded as `none`:
index of the first occurrence of `needle` as a substring of `hay`. -/
def pyFind : List Char → List Char → Option Nat
  | hay@(_ :: t), needle =>
    if needle.isPrefixOf hay then some 0 else (pyFind t needle).map (· + 1)
  | [], needle => if needle.isEmpty then some 0 else none

/-- Python `hay.find(needle, start)` (`-1` embedded as `none`): first
occurrence at an index `≥ start`. -/
def pyFindFrom (hay needle : List Char) (start : Nat) : Option Nat :=
  (pyFind (hay.drop start) needle).map (· + start)

/-- Python `hay.rfind(c, 0, stop)` restricted to a single-character needle
(`-1` embedded as `none`): the largest index `< stop` holding `c`.
This helper searches the whole list; the caller passes `hay.take stop`. -/
def pyRfindChar : List Char → Char → Option Nat
  | [], _ => none
  | h :: t, c =>
    match pyRfindChar t c with
    | some i => some (i + 1)
    | none => if h = c then some 0 else none

/-- Python slice `s[a:b]` for non-negative indices (clamping, total). -/
def pySlice (s : List Char) (a b : Nat) : List Char :=
  (s.drop a).take (b - a)

/-! ## RDF data model (rdflib shallow embedding) -/

/-- An RDF node: a URI reference or a literal (rdflib `URIRef` / `Literal`). -/
inductive Node where
  | uri : List Char → Node
  | lit : List Char → Node
deriving DecidableEq

/-- An RDF triple (subject, predicate, object). -/
abbrev Triple := Node × Node × Node

/-- An rdflib `Graph`: a set of triples (`Graph.add` has set semantics). -/
abbrev Graph := Finset Triple

/-- The namespace `HUMANITARIAN = Namespace("http://example.org/humanitarian#")`. -/
def NS : List Char := "http://example.org/humanitarian#".data

/-- The `rdf:type` predicate (rdflib `RDF.type`). -/
def RDFtype : Node := Node.uri ("http://www.w3.org/1999/02/22-rdf-syntax-ns#type".data)

/-- The `rdfs:label` predicate (rdflib `RDFS.label`). -/
def RDFSlabel : Node := Node.uri ("http://www.w3.org/2000/01/rdf-schema#label".data)

/-- A URI in the humanitarian namespace (`ns.Foo` / `HUMANITARIAN.Foo`). -/
def nsUri (s : List Char) : Node := Node.uri (NS ++ s)

/-- A recognized entity: the dict `{"type": ..., "value": ..., "start": ...,
"end": ...}` built by `recognize_entities` (the `end` key is embedded as
field `stop`, since `end` is reserved in Lean). -/
structure Entity where
  type : List Char
  value : List Char
  start : Nat
  stop : Nat
deriving DecidableEq

/-- The slug computed in `entity_to_rdf`:
`entity_value.lower().replace(" ", "_").replace("-", "_")`. -/
def entity_slug (v : List Char) : List Char :=
  pyReplace (pyReplace (pyLower v) (" ".data) ("_".data)) ("-".data) ("_".data)

/-- The node URI computed in `entity_to_rdf`:
`URIRef(f"{ns}{entity_type}_{slug}")`. -/
def entity_uri (e : Entity) : Node :=
  Node.uri (NS ++ e.type ++ ("_".data) ++ entity_slug e.value)

/-- The entity-type → ontology-class dispatch of `entity_to_rdf`
(the `if/elif` chain; unmapped types default to `ns.Entity`). -/
def type_class (t : List Char) : Node :=
  if t = "camp".data then nsUri ("Camp".data)
  else if t = "health_facility".data then nsUri ("HealthFacility".data)
  else if t = "water_source".data then nsUri ("WaterSource".data)
  else if t = "location".data then nsUri ("Location".data)
  else if t = "organization".data then nsUri ("NGO".data)
  else if t = "service".data then nsUri ("HealthService".data)
  else if t = "need".data then nsUri ("Need".data)
  else if t = "person".data then nsUri ("DisplacedPerson".data)
  else if t = "sickness_type".data then nsUri ("HealthNeed".data)
  else if t = "service_type".data then nsUri ("HealthService".data)
  else nsUri ("Entity".data)

/-- The function `entity_to_rdf(entity, graph)`: adds the type, label and name triples
for the entity and returns its URI together with the updated graph. -/
def entity_to_rdf (e : Entity) (g : Graph) : Node × Graph :=
  let uri := entity_uri e
  let g1 := insert (uri, RDFtype, type_class e.type) g
  let g2 := insert (uri, RDFSlabel, Node.lit e.value) g1
  let g3 := insert (uri, nsUri ("name".data), Node.lit e.value) g2
  (uri, g3)

/-- The three triples `entity_to_rdf` adds for one entity. -/
def nodeTriples (e : Entity) : List Triple :=
  [(entity_uri e, RDFtype, type_class e.type),
   (entity_uri e, RDFSlabel, Node.lit e.value),
   (entity_uri e, nsUri ("name".data), Node.lit e.value)]

/-- The relationship triple one inner loop iteration of `link_entities`
adds: `(outer, pred, inner)` in the direct blocks, `(inner, pred, outer)`
in the blocks whose subject is the inner entity (the service_type,
sickness_type and need blocks of the source). -/
def relTriple (pred : Node) (flipped : Bool) (a b : Entity) : Triple :=
  if flipped then (entity_uri b, pred, entity_uri a) else (entity_uri a, pred, entity_uri b)

/-- One doubly nested loop of `link_entities`: for each `a` in `outer`,
emit `a`'s node triples, then for each `b` in `inner`, emit `b`'s node
triples and the relationship triple.  The source binds
`a_uri = entity_to_rdf(a, graph)`; here `relTriple` recomputes that URI,
which is definitionally the first component of `entity_to_rdf`. -/
def linkLoop (pred : Node) (flipped : Bool) (outer inner : List Entity) (g : Graph) : Graph :=
  outer.foldl (fun g1 a =>
    inner.foldl (fun g2 b =>
      insert (relTriple pred flipped a b) (entity_to_rdf b g2).2) (entity_to_rdf a g1).2) g

/-- The entities of a given type in a batch: `entity_by_type[t]` built by
the grouping loop of `link_entities` (a key is present in the Python dict
iff this list is non-empty, and it lists the batch's entities of type `t`
in input order). -/
def ofType (t : List Char) (es : List Entity) : List Entity :=
  es.filter (fun e => e.type = t)

/-- One guarded block of `link_entities`:
`if srcT in entity_by_type and tgtT in entity_by_type:` followed by the
nested loops over the two groups. -/
def linkBlock (srcT tgtT : List Char) (pred : Node) (flipped : Bool)
    (es : List Entity) (g : Graph) : Graph :=
  if ofType srcT es ≠ [] ∧ ofType tgtT es ≠ [] then
    linkLoop pred flipped (ofType srcT es) (ofType tgtT es) g
  else g

/-- The function `link_entities(entities, graph)`: the seven relationship blocks of the
source, in source order.  Blocks 4, 5 and 7 are flipped: the source adds
`(facility, providesService, service)`, `(facility, treats, sickness)` and
`(person, hasNeed, need)`, i.e. the triple's subject is the inner-loop
entity. -/
def link_entities (es : List Entity) (g : Graph) : Graph :=
  let g1 := linkBlock ("health_facility".data) ("location".data) (nsUri ("hasLocation".data)) false es g
  let g2 := linkBlock ("camp".data) ("location".data) (nsUri ("hasLocation".data)) false es g1
  let g3 := linkBlock ("organization".data) ("service".data) (nsUri ("providesService".data)) false es g2
  let g4 := linkBlock ("service_type".data) ("health_facility".data) (nsUri ("providesService".data)) true es g3
  let g5 := linkBlock ("sickness_type".data) ("health_facility".data) (nsUri ("treats".data)) true es g4
  let g6 := linkBlock ("person".data) ("camp".data) (nsUri ("registeredAt".data)) false es g5
  let g7 := linkBlock ("need".data) ("person".data) (nsUri ("hasNeed".data)) true es g6
  g7

/-- The function `update_triple_store(graph)`: returns `False` on an empty graph without
contacting the store; otherwise posts the serialized graph and returns
`True` iff the response status is `200` or `201`; any exception from the
request is caught and yields `False`.  The store's response is a parameter:
`Except err status` models `requests.post` either raising (`error`) or
returning a response with the given status code (`ok`). -/
def update_triple_store (graph : Graph) (post : Except (List Char) Nat) : Bool :=
  if graph.card = 0 then false
  else
    match post with
    | Except.ok status => status == 200 || status == 201
    | Except.error _ => false

/-! ## Entity recognizer (`recognize_entities`) -/

/-- One item of the `rasa_entities` argument: a dict that may or may not
carry the `entity`, `value`, `start` and `end` keys (the `end` key is
embedded as field `stop`). -/
structure RasaEnt where
  entity : Option (List Char)
  value : Option (List Char)
  start : Option Nat
  stop : Option Nat
deriving DecidableEq

/-- The Rasa-to-ontology `type_mapping` dict of `recognize_entities`,
read through `.get(entity_type, entity_type)` (unmapped types pass
through unchanged). -/
def type_mapping (t : List Char) : List Char :=
  if t = "health_facility".data then "health_facility".data
  else if t = "water_source".data then "water_source".data
  else if t = "location".data then "location".data
  else if t = "service_type".data then "service".data
  else if t = "request_type".data then "need".data
  else if t = "person".data then "person".data
  else if t = "sickness_type".data then "sickness".data
  else if t = "person_name".data then "person".data
  else t

/-- The body of the Rasa loop in `recognize_entities`: an item is kept only
when it has both an `entity` and a `value` key; `start` defaults to `0` and
`end` to `len(entity_value)`. -/
def mapRasa (ent : RasaEnt) : Option Entity :=
  match ent.entity, ent.value with
  | some etype, some evalue =>
    some { type := type_mapping etype, value := evalue,
           start := ent.start.getD 0, stop := ent.stop.getD evalue.length }
  | _, _ => none

/-- The keyword `patterns` table of the fallback matcher, in source order. -/
def patterns : List (List Char × List (List Char)) :=
  [("camp".data, ["camp".data, "site".data, "kambi".data, "settlement".data]),
   ("health_facility".data,
    ["hospital".data, "clinic".data, "dispensary".data, "health center".data,
     "health centre".data, "afya".data, "hospitali".data, "kliniki".data]),
   ("water_source".data,
    ["water".data, "source".data, "maji".data, "stream".data, "well".data,
     "borehole".data, "mayi".data, "majii".data, "robinet".data, "robinets".data,
     "kisima".data]),
   ("location".data,
    ["goma".data, "nyiragongo".data, "rutshuru".data, "bulengo".data,
     "karisimbi".data, "masisi".data, "wapi".data, "fasi".data, "kambi".data]),
   ("organization".data,
    ["unhcr".data, "unicef".data, "wfp".data, "who".data, "msf".data,
     "icrc".data, "ngo".data, "viongozi".data]),
   ("service".data,
    ["education".data, "protection".data, "distribution".data, "vaccination".data,
     "treatment".data, "assistance".data, "tunziwa".data, "tunza".data,
     "tunzaka".data, "zalisha".data, "dawa".data, "ndui".data, "shoteya".data,
     "pokeya".data, "kamata".data]),
   ("need".data,
    ["food".data, "shelter".data, "medicine".data, "security".data,
     "education".data, "chakula".data, "msaada".data, "mayi".data, "maji".data,
     "dawa".data, "usalama".data, "hema".data, "masomo".data, "kutunziwa".data,
     "blanketi".data, "sabuni".data, "nafasi".data, "pesa".data]),
   ("person".data,
    ["watoto".data, "mtu".data, "wakimbizi".data, "watu".data, "batu".data,
     "bakimbizi".data, "familia".data, "mtoto".data]),
   ("sickness_type".data,
    ["malaria".data, "malali".data, "ukimwi".data, "homa".data])]

/-- One `if keyword in text_lower:` body of the fallback matcher: find the
keyword's first position, widen left to the previous space (plus one) and
right to the next space after the keyword (or the text end), and emit the
original-case slice as the entity value.  `rfind`'s `-1` case is absorbed by
Python's `max(0, · + 1)`; `find`'s `-1` case is the explicit
`if end == -1: end = len(text_lower)` of the source. -/
def keywordEntities (text tl : List Char) (etype kw : List Char) : List Entity :=
  match pyFind tl kw with
  | none => []
  | some pos =>
    let start := match pyRfindChar (tl.take pos) ' ' with
      | some i => i + 1
      | none => 0
    let stop := match pyFindFrom tl (" ".data) (pos + kw.length) with
      | some j => j
      | none => tl.length
    [{ type := etype, value := pySlice text start stop, start := start, stop := stop }]

/-- The pattern-matching fallback of `recognize_entities`: scan every
keyword of every entity type against the lower-cased text. -/
def fallbackMatch (text : List Char) : List Entity :=
  let tl := pyLower text
  patterns.flatMap (fun p => p.2.flatMap (fun kw => keywordEntities text tl p.1 kw))

/-- The function `recognize_entities(text, rasa_entities=...)` (the unused
`entity_model` parameter is omitted).  When `rasa_entities` is truthy the
Rasa items carrying both keys are mapped and, if any survive, returned;
otherwise the function falls through to pattern matching. -/
def recognize_entities (text : List Char) (rasa_entities : Option (List RasaEnt)) : List Entity :=
  let entities :=
    match rasa_entities with
    | some res => if res.length > 0 then res.filterMap mapRasa else []
    | none => []
  if entities ≠ [] then entities else fallbackMatch text

/-! ## Query builder (`query_builder.py`) -/

/-- A `QueryTemplate` instance: name, template body, required and optional
entity-name lists (`required_entities or []` / `optional_entities or []`
is resolved at construction). -/
structure QueryTemplate where
  name : List Char
  query_template : List Char
  required_entities : List (List Char)
  optional_entities : List (List Char)

/-- The `slots` dict: slot name → slot value. -/
abbrev Slots := List (List Char × List Char)

/-- The check `entity in slots and slots[entity]` as used by `build_query`'s checks
(a missing key or an empty — falsy — string both fail). -/
def slotPresent (slots : Slots) (e : List Char) : Bool :=
  match slots.lookup e with
  | some v => !v.isEmpty
  | none => false

/-- The placeholder token `f"{{{entity}}}"`, i.e. `"{" + entity + "}"`. -/
def placeholderOf (e : List Char) : List Char :=
  '\x7b' :: (e ++ ['\x7d'])

/-- The search key of the optional-entity removal step:
`f"FILTER(REGEX(?{entity}"`. -/
def filterKey (e : List Char) : List Char :=
  ("FILTER(REGEX(?".data) ++ e

/-- The optional-entity step of `build_query` for one entity name:
substitute when the slot is present and non-empty; otherwise look for
`FILTER(REGEX(?{entity}` and, when found, splice out up to (and including)
the first `)` after that position.  Python's `find(")", fs)` returning `-1`
makes `filter_end = 0`, so the splice becomes `query[:fs] + query[0:]`. -/
def optionalStep (slots : Slots) (q : List Char) (e : List Char) : List Char :=
  if slotPresent slots e then
    pyReplace q (placeholderOf e) ((slots.lookup e).getD [])
  else
    match pyFind q (filterKey e) with
    | none => q
    | some fs =>
      let fe := match pyFindFrom q (")".data) fs with
        | some j => j + 1
        | none => 0
      q.take fs ++ q.drop fe

/-- The method `QueryTemplate.build_query(slots)`: `None` when any required entity is
missing or empty; otherwise substitute required then optional entities. -/
def build_query (t : QueryTemplate) (slots : Slots) : Option (List Char) :=
  if t.required_entities.all (slotPresent slots) then
    let q1 := t.required_entities.foldl
      (fun q e => pyReplace q (placeholderOf e) ((slots.lookup e).getD [])) t.query_template
    some (t.optional_entities.foldl (optionalStep slots) q1)
  else none

/-- The SPARQL prologue shared by all four registered templates. -/
def sparqlPrologue : List Char :=
  ("\nPREFIX humanitarian: <http://example.org/humanitarian#>\nPREFIX rdf: <http://www.w3.org/1999/02/22-rdf-syntax-ns#>\nPREFIX rdfs: <http://www.w3.org/2000/01/rdf-schema#>\n\n".data)

/-- The `query_health_facilities_swa` template body. -/
def healthFacilitiesBody : List Char :=
  sparqlPrologue ++
  ("SELECT ?facility ?facilityName ?loc ?locName\nWHERE \x7b\n    ?facility rdf:type humanitarian:HealthFacility .\n    ?facility rdfs:label ?facilityName .\n    ?facility humanitarian:hasLocation ?loc .\n    ?loc rdfs:label ?locName .\n    FILTER(REGEX(?locName, \"{location}\", \"i\"))\n\x7d\n        ".data)

/-- The `query_water_sources_swa` template body. -/
def waterSourcesBody : List Char :=
  sparqlPrologue ++
  ("SELECT ?source ?sourceName ?locName ?status\nWHERE \x7b\n    ?source rdf:type humanitarian:WaterSource .\n    ?source rdfs:label ?sourceName .\n    ?source humanitarian:hasLocation ?loc .\n    ?loc rdfs:label ?locName .\n    ?source humanitarian:hasStatus ?status .\n    FILTER(REGEX(?locName, \"{location}\", \"i\"))\n\x7d\n        ".data)

/-- The `query_camps_swa` template body. -/
def campsBody : List Char :=
  sparqlPrologue ++
  ("SELECT ?camp ?campName ?locName ?capacity ?status\nWHERE \x7b\n    ?camp rdf:type humanitarian:Camp .\n    ?camp rdfs:label ?campName .\n    ?camp humanitarian:hasLocation ?loc .\n    ?loc rdfs:label ?locName .\n    ?camp humanitarian:hasCapacity ?capacity .\n    ?camp humanitarian:hasStatus ?status .\n    FILTER(REGEX(?locName, \"{location}\", \"i\"))\n\x7d\n        ".data)

/-- The `submit_aid_request_swa` template body. -/
def aidRequestBody : List Char :=
  sparqlPrologue ++
  ("SELECT ?organization ?orgName ?locName ?service ?serviceName\nWHERE \x7b\n    ?organization rdf:type humanitarian:NGO .\n    ?organization rdfs:label ?orgName .\n    ?organization humanitarian:providesService ?service .\n    ?service rdfs:label ?serviceName .\n    ?organization humanitarian:hasLocation ?loc .\n    ?loc rdfs:label ?locName .\n    FILTER(REGEX(?serviceName, \"{request_type}\", \"i\"))\n    FILTER(REGEX(?locName, \"{location}\", \"i\"))\n\x7d\n        ".data)

/-- The `QUERY_TEMPLATES` registry, keyed on intent name. -/
def QUERY_TEMPLATES : List (List Char × QueryTemplate) :=
  [(("query_health_facilities_swa".data),
    { name := "health_facilities".data, query_template := healthFacilitiesBody,
      required_entities := [], optional_entities := ["location".data] }),
   (("query_water_sources_swa".data),
    { name := "water_sources".data, query_template := waterSourcesBody,
      required_entities := [], optional_entities := ["location".data] }),
   (("query_camps_swa".data),
    { name := "camps".data, query_template := campsBody,
      required_entities := [], optional_entities := ["location".data] }),
   (("submit_aid_request_swa".data),
    { name := "aid_request".data, query_template := aidRequestBody,
      required_entities := [], optional_entities := ["request_type".data, "location".data] })]

/-- The function `get_query_for_intent(intent, slots)`: registry lookup, then
`build_query`; unknown intents yield `None`. -/
def get_query_for_intent (intent : List Char) (slots : Slots) : Option (List Char) :=
  match QUERY_TEMPLATES.lookup intent with
  | some t => build_query t slots
  | none => none

/-! ## Result formatter (`format_query_results`) -/

/-- One variable binding of a result row: the inner dict such as
`{"value": ..., "type": ...}`, as an association list. -/
abbrev BindingVal := List (List Char × List Char)

/-- One result row: variable name → inner value dict. -/
abbrev Binding := List (List Char × BindingVal)

/-- The `results` argument of `format_query_results`.  `noRes` is a falsy
value (Python `None`, or an empty dict); `missingResultsKey` is a truthy
object without a `results` entry (same fallback outcome as `noRes`);
`resultsObj none` has a `results` entry whose dict lacks `bindings` — on
that shape the guard's `results['results']['bindings']` raises `KeyError`;
`resultsObj (some bs)` carries the binding rows. -/
inductive PyRes where
  | noRes
  | missingResultsKey
  | resultsObj : Option (List Binding) → PyRes

/-- The chain `binding.get(var, {}).get('value', 'Unknown')`. -/
def bindingField (b : Binding) (v : List Char) : List Char :=
  (((b.lookup v).getD []).lookup ("value".data)).getD ("Unknown".data)

/-- The per-intent "no results" fallback messages. -/
def noResultsMsg (intent : List Char) : List Char :=
  if intent = "query_health_facilities_swa".data then
    "Samahani, hakuna vituo vya afya vilivyopatikana.".data
  else if intent = "query_water_sources_swa".data then
    "Samahani, hakuna vyanzo vya maji vilivyopatikana.".data
  else if intent = "query_camps_swa".data then
    "Samahani, hakuna kambi za wakimbizi zilizopatikana.".data
  else if intent = "submit_aid_request_swa".data then
    "Samahani, hakuna mashirika yanayotoa huduma hiyo yaliyopatikana.".data
  else
    "Samahani, hakuna majibu yaliyopatikana.".data

/-- The health-facilities row loop:
`response += f"- {facility_name} ({location})\n"`. -/
def healthRows (bindings : List Binding) : List Char :=
  bindings.foldl (fun resp b =>
    resp ++ ("- ".data) ++ bindingField b ("facilityName".data) ++ (" (".data) ++
      bindingField b ("locName".data) ++ (")\n".data))
    ("Hii ni vituo vya afya vilivyopo:\n".data)

/-- The water-sources row loop:
`response += f"- {source_name} ({location}) - {status}\n"`. -/
def waterRows (bindings : List Binding) : List Char :=
  bindings.foldl (fun resp b =>
    resp ++ ("- ".data) ++ bindingField b ("sourceName".data) ++ (" (".data) ++
      bindingField b ("locName".data) ++ (") - ".data) ++
      bindingField b ("status".data) ++ ("\n".data))
    ("Hii ni vyanzo vya maji vilivyopo:\n".data)

/-- The camps row loop:
`response += f"- {camp_name} ({location}) - Uwezo: {capacity}\n"`. -/
def campRows (bindings : List Binding) : List Char :=
  bindings.foldl (fun resp b =>
    resp ++ ("- ".data) ++ bindingField b ("campName".data) ++ (" (".data) ++
      bindingField b ("locName".data) ++ (") - Uwezo: ".data) ++
      bindingField b ("capacity".data) ++ ("\n".data))
    ("Hii ni kambi za wakimbizi ziliopo:\n".data)

/-- The aid-request row loop:
`response += f"- {org_name} ({location}) - {service_name}\n"`. -/
def aidRows (bindings : List Binding) : List Char :=
  bindings.foldl (fun resp b =>
    resp ++ ("- ".data) ++ bindingField b ("orgName".data) ++ (" (".data) ++
      bindingField b ("locName".data) ++ (") - ".data) ++
      bindingField b ("serviceName".data) ++ ("\n".data))
    ("Mashirika yanayotoa huduma hiyo:\n".data)

/-- The access `value['value']` in the generic dump: unlike the `.get` chains of the
named branches, a missing `value` key raises `KeyError`. -/
def strictValue (d : BindingVal) : Except (List Char) (List Char) :=
  match d.lookup ("value".data) with
  | some v => Except.ok v
  | none => Except.error ("KeyError: value".data)

/-- The inner loop of the generic dump:
`for var, value in binding.items(): response += f"  {var}: {value['value']}\n"`. -/
def itemsDump (b : Binding) : Except (List Char) (List Char) :=
  b.foldlM (fun acc kv => do
    let v ← strictValue kv.2
    pure (acc ++ ("  ".data) ++ kv.1 ++ (": ".data) ++ v ++ ("\n".data))) []

/-- The generic numbered dump over `enumerate(bindings)`; a `KeyError`
anywhere aborts the whole call, as the Python exception would. -/
def genericDump : Nat → List Char → List Binding → Except (List Char) (List Char)
  | _, acc, [] => Except.ok acc
  | i, acc, b :: rest =>
    match itemsDump b with
    | Except.error e => Except.error e
    | Except.ok s =>
      genericDump (i + 1)
        (acc ++ ("Jibu ".data) ++ (Nat.repr (i + 1)).data ++ (":\n".data) ++ s) rest

/-- The function `format_query_results(results, intent)`.  The source's guard
`not results or 'results' not in results or not results['results']['bindings']`
is evaluated left to right; its third disjunct raises `KeyError` when the
`results` dict lacks `bindings`.  Recognized intents render total row
loops; an unrecognized intent takes the generic dump, which can raise. -/
def format_query_results (results : PyRes) (intent : List Char) :
    Except (List Char) (List Char) :=
  match results with
  | PyRes.noRes => Except.ok (noResultsMsg intent)
  | PyRes.missingResultsKey => Except.ok (noResultsMsg intent)
  | PyRes.resultsObj none => Except.error ("KeyError: bindings".data)
  | PyRes.resultsObj (some []) => Except.ok (noResultsMsg intent)
  | PyRes.resultsObj (some bindings) =>
    if intent = "query_health_facilities_swa".data then Except.ok (healthRows bindings)
    else if intent = "query_water_sources_swa".data then Except.ok (waterRows bindings)
    else if intent = "query_camps_swa".data then Except.ok (campRows bindings)
    else if intent = "submit_aid_request_swa".data then Except.ok (aidRows bindings)
    else genericDump 0 ("Majibu yaliyopatikana:\n".data) bindings

/-! ## Derived definitions used by the statements and proofs -/

set_option maxRecDepth 10000

/-- The list of triples one `linkLoop` adds, in emission order. -/
def blockTriples (pred : Node) (flipped : Bool) (outer inner : List Entity) : List Triple :=
  outer.flatMap (fun a =>
    nodeTriples a ++ inner.flatMap (fun b => nodeTriples b ++ [relTriple pred flipped a b]))

/-- The contribution of one guarded block of `link_entities`. -/
def inBlock (srcT tgtT : List Char) (pred : Node) (flipped : Bool)
    (es : List Entity) (t : Triple) : Prop :=
  ofType srcT es ≠ [] ∧ ofType tgtT es ≠ [] ∧
    t ∈ blockTriples pred flipped (ofType srcT es) (ofType tgtT es)

/-- Substring test (`needle in hay`), via `pyFind`. -/
def strContains (hay sub : List Char) : Bool := (pyFind hay sub).isSome

/-- A sample `service_type` entity. -/
def svcEnt : Entity :=
  { type := "service_type".data, value := "vaccination".data, start := 0, stop := 0 }

/-- A sample `sickness_type` entity. -/
def sickEnt : Entity :=
  { type := "sickness_type".data, value := "malaria".data, start := 0, stop := 0 }

/-- A sample `health_facility` entity. -/
def facEnt : Entity :=
  { type := "health_facility".data, value := "heal africa".data, start := 0, stop := 0 }

/-- A second sample `health_facility` entity. -/
def facEnt2 : Entity :=
  { type := "health_facility".data, value := "virunga clinic".data, start := 0, stop := 0 }

/-- Sample `location` entities. -/
def locEnt : Entity :=
  { type := "location".data, value := "goma".data, start := 0, stop := 0 }

/-- A second sample `location` entity. -/
def locEnt2 : Entity :=
  { type := "location".data, value := "bulengo".data, start := 0, stop := 0 }

/-- A third sample `location` entity. -/
def locEnt3 : Entity :=
  { type := "location".data, value := "masisi".data, start := 0, stop := 0 }

/-- A sample `need` entity. -/
def needEnt : Entity :=
  { type := "need".data, value := "chakula".data, start := 0, stop := 0 }

/-- A sample `person` entity. -/
def personEnt : Entity :=
  { type := "person".data, value := "watoto".data, start := 0, stop := 0 }

/-- A sample non-empty graph. -/
def sampleGraph : Graph :=
  insert (nsUri ("x".data), nsUri ("y".data), nsUri ("z".data)) ∅

/-! ## Lemmas: the triples produced by `link_entities` -/

theorem entity_to_rdf_fst (e : Entity) (g : Graph) : (entity_to_rdf e g).1 = entity_uri e := rfl

theorem entity_to_rdf_snd (e : Entity) (g : Graph) :
    (entity_to_rdf e g).2 = g ∪ (nodeTriples e).toFinset := by
  ext t
  simp [entity_to_rdf, nodeTriples]
  tauto

theorem insert_rel_eq (pred : Node) (flipped : Bool) (a b : Entity) (g : Graph) :
    insert (relTriple pred flipped a b) (entity_to_rdf b g).2
      = g ∪ (nodeTriples b ++ [relTriple pred flipped a b]).toFinset := by
  ext t
  simp [entity_to_rdf, nodeTriples]
  tauto

theorem innerFold_eq (pred : Node) (flipped : Bool) (a : Entity) (inner : List Entity)
    (g : Graph) :
    inner.foldl (fun g2 b => insert (relTriple pred flipped a b) (entity_to_rdf b g2).2) g
      = g ∪ (inner.flatMap (fun b => nodeTriples b ++ [relTriple pred flipped a b])).toFinset := by
  induction inner generalizing g with
  | nil => simp
  | cons b rest ih =>
    rw [List.foldl_cons, ih, insert_rel_eq, List.flatMap_cons]
    simp [List.toFinset_append, Finset.insert_eq, Finset.union_assoc, Finset.union_comm,
      Finset.union_left_comm]

theorem linkLoop_eq (pred : Node) (flipped : Bool) (outer inner : List Entity) (g : Graph) :
    linkLoop pred flipped outer inner g = g ∪ (blockTriples pred flipped outer inner).toFinset := by
  induction outer generalizing g with
  | nil => simp [linkLoop, blockTriples]
  | cons a rest ih =>
    have hstep : linkLoop pred flipped (a :: rest) inner g
        = linkLoop pred flipped rest inner
            (inner.foldl (fun g2 b => insert (relTriple pred flipped a b) (entity_to_rdf b g2).2)
              (entity_to_rdf a g).2) := rfl
    rw [hstep, ih, innerFold_eq, entity_to_rdf_snd]
    simp [blockTriples, List.toFinset_append, Finset.union_assoc]

/-- Membership in the triples of one block. -/
theorem mem_blockTriples {t : Triple} {pred : Node} {flipped : Bool}
    {outer inner : List Entity} :
    t ∈ blockTriples pred flipped outer inner ↔
      ∃ a ∈ outer, t ∈ nodeTriples a ∨ ∃ b ∈ inner,
        (t ∈ nodeTriples b ∨ t = relTriple pred flipped a b) := by
  simp [blockTriples]

theorem mem_linkBlock {srcT tgtT : List Char} {pred : Node} {flipped : Bool}
    {es : List Entity} {g : Graph} {t : Triple} :
    t ∈ linkBlock srcT tgtT pred flipped es g ↔ t ∈ g ∨ inBlock srcT tgtT pred flipped es t := by
  unfold linkBlock inBlock
  by_cases h : ofType srcT es ≠ [] ∧ ofType tgtT es ≠ []
  · simp [h, linkLoop_eq]
  · simp [h]
    tauto

/-- Every triple of `link_entities es g` is a triple of `g` or arises from
one of the seven relationship blocks. -/
theorem mem_link_entities {es : List Entity} {g : Graph} {t : Triple} :
    t ∈ link_entities es g ↔ t ∈ g
      ∨ inBlock ("health_facility".data) ("location".data) (nsUri ("hasLocation".data)) false es t
      ∨ inBlock ("camp".data) ("location".data) (nsUri ("hasLocation".data)) false es t
      ∨ inBlock ("organization".data) ("service".data) (nsUri ("providesService".data)) false es t
      ∨ inBlock ("service_type".data) ("health_facility".data) (nsUri ("providesService".data)) true es t
      ∨ inBlock ("sickness_type".data) ("health_facility".data) (nsUri ("treats".data)) true es t
      ∨ inBlock ("person".data) ("camp".data) (nsUri ("registeredAt".data)) false es t
      ∨ inBlock ("need".data) ("person".data) (nsUri ("hasNeed".data)) true es t := by
  unfold link_entities
  simp only [mem_linkBlock]
  tauto

theorem relTriple_pred (pred : Node) (flipped : Bool) (a b : Entity) :
    (relTriple pred flipped a b).2.1 = pred := by
  cases flipped <;> rfl

theorem nodeTriples_pred {t : Triple} {e : Entity} (h : t ∈ nodeTriples e) :
    t.2.1 = RDFtype ∨ t.2.1 = RDFSlabel ∨ t.2.1 = nsUri ("name".data) := by
  simp [nodeTriples] at h
  rcases h with h | h | h <;> subst h <;> simp

/-- A triple of a block whose predicate component is not one of the three
node-triple predicates must be that block's relationship triple, and the
block's predicate must agree. -/
theorem rel_of_inBlock {srcT tgtT : List Char} {pred target : Node} {flipped : Bool}
    {es : List Entity} {t : Triple}
    (h : inBlock srcT tgtT pred flipped es t) (hp : t.2.1 = target)
    (hn1 : target ≠ RDFtype) (hn2 : target ≠ RDFSlabel) (hn3 : target ≠ nsUri ("name".data)) :
    pred = target ∧ ∃ a ∈ ofType srcT es, ∃ b ∈ ofType tgtT es,
      t = relTriple pred flipped a b := by
  obtain ⟨-, -, hmem⟩ := h
  rw [mem_blockTriples] at hmem
  obtain ⟨a, ha, hcase⟩ := hmem
  rcases hcase with hnode | ⟨b, hb, hcase2⟩
  · rcases nodeTriples_pred hnode with h | h | h <;> rw [hp] at h <;>
      first
        | exact absurd h hn1
        | exact absurd h hn2
        | exact absurd h hn3
  · rcases hcase2 with hnode | hrel
    · rcases nodeTriples_pred hnode with h | h | h <;> rw [hp] at h <;>
        first
          | exact absurd h hn1
          | exact absurd h hn2
          | exact absurd h hn3
    · refine ⟨?_, a, ha, b, hb, hrel⟩
      rw [← hp, hrel, relTriple_pred]

/-- Conversely, any source/target pair of a block with both groups
non-empty contributes its relationship triple. -/
theorem inBlock_of_pair {srcT tgtT : List Char} {pred : Node} {flipped : Bool}
    {es : List Entity} {a b : Entity}
    (ha : a ∈ ofType srcT es) (hb : b ∈ ofType tgtT es) :
    inBlock srcT tgtT pred flipped es (relTriple pred flipped a b) := by
  refine ⟨List.ne_nil_of_mem ha, List.ne_nil_of_mem hb, ?_⟩
  rw [mem_blockTriples]
  exact ⟨a, ha, Or.inr ⟨b, hb, Or.inr rfl⟩⟩

/-! ## Claim theorems -/

/-- C8: calling `entity_to_rdf` twice with the same entity on the same
graph yields exactly the triple set of a single call — the second call adds
no new triple (rdflib set semantics make the re-inserts no-ops). -/
theorem C8_entity_to_rdf_idempotent (e : Entity) (g : Graph) :
    (entity_to_rdf e ((entity_to_rdf e g).2)).2 = (entity_to_rdf e g).2 := by
  ext t
  simp [entity_to_rdf]

/-- C7: two entities of the same type whose values agree after
lower-casing and replacing spaces and hyphens with underscores (the slug)
receive the same node URI from `entity_to_rdf`, on any graphs. -/
theorem C7_entity_uri_deterministic (e1 e2 : Entity) (g1 g2 : Graph)
    (ht : e1.type = e2.type) (hs : entity_slug e1.value = entity_slug e2.value) :
    (entity_to_rdf e1 g1).1 = (entity_to_rdf e2 g2).1 := by
  rw [entity_to_rdf_fst, entity_to_rdf_fst]
  unfold entity_uri
  rw [ht, hs]

/-- C7 witness: `("location", "Goma-Town")` and `("location", "goma town")`
slug identically, hence share one URI. -/
theorem C7_entity_uri_deterministic_witness :
    (({ type := "location".data, value := "Goma-Town".data, start := 0, stop := 0 } : Entity).type
        = ({ type := "location".data, value := "goma town".data, start := 0, stop := 0 } : Entity).type)
    ∧ entity_slug ("Goma-Town".data) = entity_slug ("goma town".data)
    ∧ (entity_to_rdf { type := "location".data, value := "Goma-Town".data, start := 0, stop := 0 } ∅).1
        = (entity_to_rdf { type := "location".data, value := "goma town".data, start := 0, stop := 0 } ∅).1 :=
  ⟨by decide, by decide,
    C7_entity_uri_deterministic _ _ ∅ ∅ (by decide) (by decide)⟩

/-- C2 counterexample: a non-empty graph posted with HTTP status `202` — a
2xx status — still yields `False`, refuting "true exactly on any 2xx". -/
theorem C2_counterexample :
    sampleGraph.card ≠ 0
    ∧ (200 ≤ 202 ∧ 202 < 300)
    ∧ update_triple_store sampleGraph (Except.ok 202) = false := by
  refine ⟨by decide, by decide, by decide⟩

/-- C2 amended: `update_triple_store` returns `True` exactly when the graph
is non-empty and the store replies with status `200` or `201`; every other
status, every raised exception, and the empty graph yield `False` — and on
an empty graph the result does not depend on the store at all. -/
theorem C2_update_triple_store_amended (g : Graph) (post : Except (List Char) Nat) :
    (update_triple_store g post = true
        ↔ g.card ≠ 0 ∧ ∃ c, post = Except.ok c ∧ (c = 200 ∨ c = 201))
    ∧ (g.card = 0 → ∀ post', update_triple_store g post = update_triple_store g post') := by
  constructor
  · unfold update_triple_store
    by_cases h : g.card = 0
    · simp [h]
    · cases post with
      | ok c =>
        simp only [h, if_false]
        constructor
        · intro hc
          refine ⟨h, c, rfl, ?_⟩
          simpa using hc
        · rintro ⟨-, c', hc', hor⟩
          cases hc'
          simpa using hor
      | error e => simp [h]
  · intro h0 post'
    unfold update_triple_store
    simp [h0]

/-- C2 witness: instantiating the amended theorem at the sample graph and
a `200` response. -/
theorem C2_update_triple_store_amended_witness :
    update_triple_store sampleGraph (Except.ok 200) = true :=
  (C2_update_triple_store_amended sampleGraph (Except.ok 200)).1.mpr
    ⟨by decide, 200, rfl, Or.inl rfl⟩

/-- C3 counterexample: in a batch holding one `service_type` and one
`health_facility` entity, `link_entities` emits the `providesService`
triple with the facility as SUBJECT; the triple with the facility as
object — the direction the claim asserts — is absent. -/
theorem C3_counterexample :
    (entity_uri facEnt, nsUri ("providesService".data), entity_uri svcEnt)
        ∈ link_entities [svcEnt, facEnt] ∅
    ∧ (entity_uri svcEnt, nsUri ("providesService".data), entity_uri facEnt)
        ∉ link_entities [svcEnt, facEnt] ∅ := by
  constructor
  · decide
  · decide

/-- C3 amended: `link_entities` emits each relationship triple per the
fixed rule table, but for `(service_type, health_facility)` and
`(sickness_type, health_facility)` the facility node is the SUBJECT of the
`providesService`/`treats` triple (the service/sickness is the object), and
for `(need, person)` the person node is the SUBJECT of the `hasNeed` triple
(the need is the object): every triple of those three predicates has that
shape, and every co-occurring pair contributes its triple. -/
theorem C3_link_direction_amended (es : List Entity) (t : Triple) :
    (t ∈ link_entities es ∅ → t.2.1 = nsUri ("providesService".data) →
        (∃ o ∈ ofType ("organization".data) es, ∃ s ∈ ofType ("service".data) es,
          t = (entity_uri o, nsUri ("providesService".data), entity_uri s))
        ∨ (∃ s ∈ ofType ("service_type".data) es, ∃ f ∈ ofType ("health_facility".data) es,
          t = (entity_uri f, nsUri ("providesService".data), entity_uri s)))
    ∧ (t ∈ link_entities es ∅ → t.2.1 = nsUri ("treats".data) →
        ∃ s ∈ ofType ("sickness_type".data) es, ∃ f ∈ ofType ("health_facility".data) es,
          t = (entity_uri f, nsUri ("treats".data), entity_uri s))
    ∧ (t ∈ link_entities es ∅ → t.2.1 = nsUri ("hasNeed".data) →
        ∃ n ∈ ofType ("need".data) es, ∃ p ∈ ofType ("person".data) es,
          t = (entity_uri p, nsUri ("hasNeed".data), entity_uri n))
    ∧ (∀ s ∈ ofType ("service_type".data) es, ∀ f ∈ ofType ("health_facility".data) es,
        (entity_uri f, nsUri ("providesService".data), entity_uri s) ∈ link_entities es ∅)
    ∧ (∀ s ∈ ofType ("sickness_type".data) es, ∀ f ∈ ofType ("health_facility".data) es,
        (entity_uri f, nsUri ("treats".data), entity_uri s) ∈ link_entities es ∅)
    ∧ (∀ n ∈ ofType ("need".data) es, ∀ p ∈ ofType ("person".data) es,
        (entity_uri p, nsUri ("hasNeed".data), entity_uri n) ∈ link_entities es ∅) := by
  refine ⟨?_, ?_, ?_, ?_, ?_, ?_⟩
  · intro hmem hp
    rw [mem_link_entities] at hmem
    rcases hmem with h | h | h | h | h | h | h | h
    · simp at h
    · exact absurd (rel_of_inBlock h hp (by decide) (by decide) (by decide)).1 (by decide)
    · exact absurd (rel_of_inBlock h hp (by decide) (by decide) (by decide)).1 (by decide)
    · obtain ⟨-, a, ha, b, hb, ht⟩ := rel_of_inBlock h hp (by decide) (by decide) (by decide)
      exact Or.inl ⟨a, ha, b, hb, ht⟩
    · obtain ⟨-, a, ha, b, hb, ht⟩ := rel_of_inBlock h hp (by decide) (by decide) (by decide)
      exact Or.inr ⟨a, ha, b, hb, ht⟩
    · exact absurd (rel_of_inBlock h hp (by decide) (by decide) (by decide)).1 (by decide)
    · exact absurd (rel_of_inBlock h hp (by decide) (by decide) (by decide)).1 (by decide)
    · exact absurd (rel_of_inBlock h hp (by decide) (by decide) (by decide)).1 (by decide)
  · intro hmem hp
    rw [mem_link_entities] at hmem
    rcases hmem with h | h | h | h | h | h | h | h
    · simp at h
    · exact absurd (rel_of_inBlock h hp (by decide) (by decide) (by decide)).1 (by decide)
    · exact absurd (rel_of_inBlock h hp (by decide) (by decide) (by decide)).1 (by decide)
    · exact absurd (rel_of_inBlock h hp (by decide) (by decide) (by decide)).1 (by decide)
    · exact absurd (rel_of_inBlock h hp (by decide) (by decide) (by decide)).1 (by decide)
    · obtain ⟨-, a, ha, b, hb, ht⟩ := rel_of_inBlock h hp (by decide) (by decide) (by decide)
      exact ⟨a, ha, b, hb, ht⟩
    · exact absurd (rel_of_inBlock h hp (by decide) (by decide) (by decide)).1 (by decide)
    · exact absurd (rel_of_inBlock h hp (by decide) (by decide) (by decide)).1 (by decide)
  · intro hmem hp
    rw [mem_link_entities] at hmem
    rcases hmem with h | h | h | h | h | h | h | h
    · simp at h
    · exact absurd (rel_of_inBlock h hp (by decide) (by decide) (by decide)).1 (by decide)
    · exact absurd (rel_of_inBlock h hp (by decide) (by decide) (by decide)).1 (by decide)
    · exact absurd (rel_of_inBlock h hp (by decide) (by decide) (by decide)).1 (by decide)
    · exact absurd (rel_of_inBlock h hp (by decide) (by decide) (by decide)).1 (by decide)
    · exact absurd (rel_of_inBlock h hp (by decide) (by decide) (by decide)).1 (by decide)
    · exact absurd (rel_of_inBlock h hp (by decide) (by decide) (by decide)).1 (by decide)
    · obtain ⟨-, a, ha, b, hb, ht⟩ := rel_of_inBlock h hp (by decide) (by decide) (by decide)
      exact ⟨a, ha, b, hb, ht⟩
  · intro s hs f hf
    rw [mem_link_entities]
    exact Or.inr (Or.inr (Or.inr (Or.inr (Or.inl (inBlock_of_pair hs hf)))))
  · intro s hs f hf
    rw [mem_link_entities]
    exact Or.inr (Or.inr (Or.inr (Or.inr (Or.inr (Or.inl (inBlock_of_pair hs hf))))))
  · intro n hn p hp
    rw [mem_link_entities]
    exact Or.inr (Or.inr (Or.inr (Or.inr (Or.inr (Or.inr (Or.inr (inBlock_of_pair hn hp)))))))

/-- C3 witness: instantiating the amended theorem on a concrete batch with
one sickness and one facility: the `treats` triple has the facility as
subject. -/
theorem C3_link_direction_amended_witness :
    (entity_uri facEnt, nsUri ("treats".data), entity_uri sickEnt)
      ∈ link_entities [sickEnt, facEnt] ∅ :=
  (C3_link_direction_amended [sickEnt, facEnt] (RDFtype, RDFtype, RDFtype)).2.2.2.2.1
    sickEnt (by decide) facEnt (by decide)

/-! ## Lemmas for the cross-product count (C6) -/

theorem ofType_eq_nil {es : List Entity} {A B C : List Char}
    (h : ∀ e ∈ es, e.type = A ∨ e.type = B) (h1 : C ≠ A) (h2 : C ≠ B) :
    ofType C es = [] := by
  rw [ofType, List.filter_eq_nil_iff]
  intro e he
  simp only [decide_eq_true_eq]
  rcases h e he with ht | ht <;> rw [ht] <;> [exact fun hc => h1 hc.symm;
    exact fun hc => h2 hc.symm]

theorem linkBlock_skip {srcT tgtT : List Char} {pred : Node} {flipped : Bool}
    {es : List Entity} {g : Graph}
    (h : ofType srcT es = [] ∨ ofType tgtT es = []) :
    linkBlock srcT tgtT pred flipped es g = g := by
  unfold linkBlock
  rcases h with h | h <;> simp [h]

theorem entity_uri_inj {a b : Entity} (ht : a.type = b.type)
    (hu : entity_uri a = entity_uri b) : entity_slug a.value = entity_slug b.value := by
  unfold entity_uri at hu
  injection hu with h
  rw [ht] at h
  exact List.append_cancel_left h

/-- On a batch whose `(type, slug)` pairs are pairwise distinct, two
same-type entities with the same URI are equal. -/
theorem entity_uri_inj_on {es : List Entity}
    (hnd : (es.map (fun e => (e.type, entity_slug e.value))).Nodup)
    {a b : Entity} (ha : a ∈ es) (hb : b ∈ es) (ht : a.type = b.type)
    (hu : entity_uri a = entity_uri b) : a = b := by
  exact List.inj_on_of_nodup_map hnd ha hb (by rw [ht, entity_uri_inj ht hu])

theorem ofType_type {t : List Char} {es : List Entity} {e : Entity}
    (h : e ∈ ofType t es) : e.type = t := by
  have := List.of_mem_filter h
  simpa using this

theorem ofType_sub {t : List Char} {es : List Entity} {e : Entity}
    (h : e ∈ ofType t es) : e ∈ es :=
  List.mem_of_mem_filter h

/-- The triples of one direct block carrying the block's predicate are
exactly the cross-product image, provided the predicate is none of the
three node-triple predicates. -/
theorem blockTriples_filter_eq {pred : Node} {outer inner : List Entity}
    (hn1 : pred ≠ RDFtype) (hn2 : pred ≠ RDFSlabel) (hn3 : pred ≠ nsUri ("name".data)) :
    (blockTriples pred false outer inner).toFinset.filter (fun t => t.2.1 = pred)
      = (outer.toFinset ×ˢ inner.toFinset).image
          (fun p => (entity_uri p.1, pred, entity_uri p.2)) := by
  ext t
  constructor
  · intro h
    rw [Finset.mem_filter, List.mem_toFinset, mem_blockTriples] at h
    obtain ⟨⟨a, ha, hc⟩, hp⟩ := h
    rcases hc with hnode | ⟨b, hb, hc2⟩
    · rcases nodeTriples_pred hnode with h' | h' | h' <;> rw [hp] at h' <;>
        [exact absurd h' hn1; exact absurd h' hn2; exact absurd h' hn3]
    · rcases hc2 with hnode | hrel
      · rcases nodeTriples_pred hnode with h' | h' | h' <;> rw [hp] at h' <;>
          [exact absurd h' hn1; exact absurd h' hn2; exact absurd h' hn3]
      · rw [Finset.mem_image]
        refine ⟨(a, b), ?_, ?_⟩
        · rw [Finset.mem_product]
          exact ⟨List.mem_toFinset.2 ha, List.mem_toFinset.2 hb⟩
        · rw [hrel]
          rfl
  · intro h
    rw [Finset.mem_image] at h
    obtain ⟨p, hp, ht⟩ := h
    rw [Finset.mem_product, List.mem_toFinset, List.mem_toFinset] at hp
    rw [Finset.mem_filter, List.mem_toFinset, mem_blockTriples]
    subst ht
    exact ⟨⟨p.1, hp.1, Or.inr ⟨p.2, hp.2, Or.inr rfl⟩⟩, rfl⟩

theorem inBlock_mono {es es' : List Entity} (h : es.Perm es') {srcT tgtT : List Char}
    {pred : Node} {flipped : Bool} {t : Triple}
    (hb : inBlock srcT tgtT pred flipped es t) : inBlock srcT tgtT pred flipped es' t := by
  obtain ⟨h1, h2, h3⟩ := hb
  have hs : (ofType srcT es).Perm (ofType srcT es') := h.filter _
  have ht : (ofType tgtT es).Perm (ofType tgtT es') := h.filter _
  refine ⟨fun hn => h1 (List.Perm.eq_nil (hn ▸ hs)), fun hn => h2 (List.Perm.eq_nil (hn ▸ ht)), ?_⟩
  rw [mem_blockTriples] at h3 ⊢
  obtain ⟨a, ha, hc⟩ := h3
  refine ⟨a, hs.mem_iff.1 ha, ?_⟩
  rcases hc with hnode | ⟨b, hb', hc2⟩
  · exact Or.inl hnode
  · exact Or.inr ⟨b, ht.mem_iff.1 hb', hc2⟩

/-- The triple set `link_entities` produces does not depend on the input
order of the batch. -/
theorem link_entities_perm {es es' : List Entity} (h : es.Perm es') :
    link_entities es ∅ = link_entities es' ∅ := by
  ext t
  rw [mem_link_entities, mem_link_entities]
  have hi : ∀ (srcT tgtT : List Char) (pred : Node) (flipped : Bool),
      inBlock srcT tgtT pred flipped es t ↔ inBlock srcT tgtT pred flipped es' t :=
    fun srcT tgtT pred flipped => ⟨inBlock_mono h, inBlock_mono h.symm⟩
  simp only [hi]

/-- C6: on a batch of `health_facility` and `location` entities with
pairwise distinct `(type, slug)` pairs, `link_entities` produces exactly
`m * n` `hasLocation` relationship triples — the full cross product — and
the produced triple set is independent of the input order. -/
theorem C6_cross_product_linking (es : List Entity)
    (htypes : ∀ e ∈ es, e.type = "health_facility".data ∨ e.type = "location".data)
    (hnd : (es.map (fun e => (e.type, entity_slug e.value))).Nodup) :
    ((link_entities es ∅).filter (fun t => t.2.1 = nsUri ("hasLocation".data))).card
        = (ofType ("health_facility".data) es).length * (ofType ("location".data) es).length
    ∧ ∀ es' : List Entity, es.Perm es' → link_entities es ∅ = link_entities es' ∅ := by
  refine ⟨?_, fun es' h => link_entities_perm h⟩
  have hred : link_entities es ∅
      = linkBlock ("health_facility".data) ("location".data)
          (nsUri ("hasLocation".data)) false es ∅ := by
    simp only [link_entities]
    rw [linkBlock_skip (Or.inl (ofType_eq_nil (C := "need".data) htypes (by decide) (by decide))),
      linkBlock_skip (Or.inl (ofType_eq_nil (C := "person".data) htypes (by decide) (by decide))),
      linkBlock_skip (Or.inl (ofType_eq_nil (C := "sickness_type".data) htypes (by decide) (by decide))),
      linkBlock_skip (Or.inl (ofType_eq_nil (C := "service_type".data) htypes (by decide) (by decide))),
      linkBlock_skip (Or.inl (ofType_eq_nil (C := "organization".data) htypes (by decide) (by decide))),
      linkBlock_skip (Or.inl (ofType_eq_nil (C := "camp".data) htypes (by decide) (by decide)))]
  rw [hred]
  by_cases hfe : ofType ("health_facility".data) es = []
  · rw [linkBlock_skip (Or.inl hfe), hfe]
    simp
  by_cases hle : ofType ("location".data) es = []
  · rw [linkBlock_skip (Or.inr hle), hle]
    simp
  have hguard : ofType ("health_facility".data) es ≠ [] ∧ ofType ("location".data) es ≠ [] :=
    ⟨hfe, hle⟩
  rw [linkBlock, if_pos hguard, linkLoop_eq, Finset.empty_union,
    blockTriples_filter_eq (by decide) (by decide) (by decide)]
  have hinj : Set.InjOn (fun p : Entity × Entity => (entity_uri p.1, nsUri ("hasLocation".data), entity_uri p.2))
      ↑((ofType ("health_facility".data) es).toFinset ×ˢ (ofType ("location".data) es).toFinset) := by
    intro p hp q hq heq
    rw [Finset.coe_product, Set.mem_prod] at hp hq
    obtain ⟨hp1, hp2⟩ := hp
    obtain ⟨hq1, hq2⟩ := hq
    rw [Finset.mem_coe, List.mem_toFinset] at hp1 hp2 hq1 hq2
    have h1 : entity_uri p.1 = entity_uri q.1 := congrArg (fun t : Triple => t.1) heq
    have h2 : entity_uri p.2 = entity_uri q.2 := congrArg (fun t : Triple => t.2.2) heq
    have e1 : p.1 = q.1 := entity_uri_inj_on hnd (ofType_sub hp1) (ofType_sub hq1)
      (by rw [ofType_type hp1, ofType_type hq1]) h1
    have e2 : p.2 = q.2 := entity_uri_inj_on hnd (ofType_sub hp2) (ofType_sub hq2)
      (by rw [ofType_type hp2, ofType_type hq2]) h2
    exact Prod.ext e1 e2
  have hnodup : ∀ t : List Char, (ofType t es).Nodup := fun t => (hnd.of_map _).filter _
  rw [Finset.card_image_of_injOn hinj, Finset.card_product,
    List.toFinset_card_of_nodup (hnodup _), List.toFinset_card_of_nodup (hnodup _)]

/-- C6 witness: two facilities and three locations yield six `hasLocation`
triples, and reversing the batch leaves the triple set unchanged. -/
theorem C6_cross_product_linking_witness :
    ((link_entities [facEnt, facEnt2, locEnt, locEnt2, locEnt3] ∅).filter
        (fun t => t.2.1 = nsUri ("hasLocation".data))).card = 2 * 3
    ∧ link_entities [facEnt, facEnt2, locEnt, locEnt2, locEnt3] ∅
        = link_entities [locEnt3, locEnt2, locEnt, facEnt2, facEnt] ∅ := by
  have h := C6_cross_product_linking [facEnt, facEnt2, locEnt, locEnt2, locEnt3]
    (by decide) (by decide)
  refine ⟨?_, h.2 _ (by decide)⟩
  rw [h.1]
  decide

/-- C5: for every template and slot mapping, a single required entity that
is missing or empty makes `build_query` return `None` — no partially
substituted query is produced, whatever the optional slots hold. -/
theorem C5_required_slot_guard (t : QueryTemplate) (slots : Slots) (e : List Char)
    (he : e ∈ t.required_entities) (hmiss : slotPresent slots e = false) :
    build_query t slots = none := by
  unfold build_query
  rw [if_neg]
  intro hall
  have := List.all_eq_true.mp hall e he
  rw [hmiss] at this
  exact Bool.false_ne_true this

/-- C5 witness: a template requiring `location` built from empty slots. -/
theorem C5_required_slot_guard_witness :
    build_query
      { name := "t".data, query_template := "SELECT ?x".data,
        required_entities := ["location".data], optional_entities := [] } [] = none :=
  C5_required_slot_guard _ [] ("location".data) (by decide) (by decide)

/-- C1: for every registered template, omitting the optional parameter
leaves the `\x7bplaceholder\x7d` token in the emitted query and the FILTER
clause intact — the removal key `FILTER(REGEX(?location` never matches the
templates' variable names (`?locName` / `?serviceName`), so the clause is
never removed; supplying the parameter substitutes it correctly. -/
theorem C1_optional_filter_never_removed :
    (∃ q, get_query_for_intent ("query_health_facilities_swa".data) [] = some q
        ∧ strContains q (placeholderOf ("location".data)) = true
        ∧ strContains q ("FILTER(REGEX(?locName".data) = true
        ∧ strContains q (filterKey ("location".data)) = false)
    ∧ (∃ q, get_query_for_intent ("query_water_sources_swa".data) [] = some q
        ∧ strContains q (placeholderOf ("location".data)) = true)
    ∧ (∃ q, get_query_for_intent ("query_camps_swa".data) [] = some q
        ∧ strContains q (placeholderOf ("location".data)) = true)
    ∧ (∃ q, get_query_for_intent ("submit_aid_request_swa".data) [] = some q
        ∧ strContains q (placeholderOf ("request_type".data)) = true
        ∧ strContains q (placeholderOf ("location".data)) = true)
    ∧ (∃ q, get_query_for_intent ("query_health_facilities_swa".data)
            [(("location".data), ("Goma".data))] = some q
        ∧ strContains q ("Goma".data) = true
        ∧ strContains q (placeholderOf ("location".data)) = false) := by
  refine ⟨⟨_, rfl, by decide, by decide, by decide⟩,
    ⟨_, rfl, by decide⟩, ⟨_, rfl, by decide⟩,
    ⟨_, rfl, by decide, by decide⟩, ⟨_, rfl, by decide, by decide⟩⟩

/-! ## Lemmas for the result formatter (C4) -/

theorem foldl_ne_nil {α : Type} (step : List Char → α → List Char)
    (hstep : ∀ r a, r.length ≤ (step r a).length) :
    ∀ (l : List α) (acc : List Char), acc.length ≤ (l.foldl step acc).length := by
  intro l
  induction l with
  | nil => simp
  | cons a t ih => intro acc; exact le_trans (hstep acc a) (ih (step acc a))

theorem noResultsMsg_ne_nil (intent : List Char) : noResultsMsg intent ≠ [] := by
  unfold noResultsMsg
  split
  · decide
  split
  · decide
  split
  · decide
  split
  · decide
  · decide

theorem healthRows_ne_nil (bs : List Binding) : healthRows bs ≠ [] := by
  intro hnil
  have h : ("Hii ni vituo vya afya vilivyopo:\n".data).length ≤ (healthRows bs).length :=
    foldl_ne_nil _ (fun r a => by simp only [List.length_append]; omega) bs _
  rw [hnil] at h
  simp at h

theorem waterRows_ne_nil (bs : List Binding) : waterRows bs ≠ [] := by
  intro hnil
  have h : ("Hii ni vyanzo vya maji vilivyopo:\n".data).length ≤ (waterRows bs).length :=
    foldl_ne_nil _ (fun r a => by simp only [List.length_append]; omega) bs _
  rw [hnil] at h
  simp at h

theorem campRows_ne_nil (bs : List Binding) : campRows bs ≠ [] := by
  intro hnil
  have h : ("Hii ni kambi za wakimbizi ziliopo:\n".data).length ≤ (campRows bs).length :=
    foldl_ne_nil _ (fun r a => by simp only [List.length_append]; omega) bs _
  rw [hnil] at h
  simp at h

theorem aidRows_ne_nil (bs : List Binding) : aidRows bs ≠ [] := by
  intro hnil
  have h : ("Mashirika yanayotoa huduma hiyo:\n".data).length ≤ (aidRows bs).length :=
    foldl_ne_nil _ (fun r a => by simp only [List.length_append]; omega) bs _
  rw [hnil] at h
  simp at h

/-- C4 counterexample: with a non-empty result row whose binding value dict
lacks the `value` key, the generic dump taken for an unrecognized template
name raises `KeyError` instead of degrading to a placeholder. -/
theorem C4_counterexample :
    format_query_results (PyRes.resultsObj (some [[(("x".data), [])]]))
        ("unknown_intent".data)
      = Except.error ("KeyError: value".data) := rfl

/-- C4 amended: `format_query_results` returns a non-empty per-template
fallback on empty or absent results for every template name, and never
raises for the four recognized template names (missing row fields degrade
to the literal `Unknown`); but the generic key/value dump for an
unrecognized name raises `KeyError` on a row value lacking the `value` key,
and the guard itself raises when the `results` dict lacks `bindings`. -/
theorem C4_format_query_results_amended (res : PyRes) (intent : List Char) :
    (res = PyRes.noRes ∨ res = PyRes.missingResultsKey ∨ res = PyRes.resultsObj (some []) →
      ∃ s, format_query_results res intent = Except.ok s ∧ s ≠ [])
    ∧ ((intent = "query_health_facilities_swa".data ∨ intent = "query_water_sources_swa".data
          ∨ intent = "query_camps_swa".data ∨ intent = "submit_aid_request_swa".data) →
        res ≠ PyRes.resultsObj none →
        ∃ s, format_query_results res intent = Except.ok s ∧ s ≠ []) := by
  constructor
  · rintro (rfl | rfl | rfl) <;>
      exact ⟨noResultsMsg intent, rfl, noResultsMsg_ne_nil intent⟩
  · intro hintent hshape
    match res with
    | PyRes.noRes => exact ⟨noResultsMsg intent, rfl, noResultsMsg_ne_nil intent⟩
    | PyRes.missingResultsKey => exact ⟨noResultsMsg intent, rfl, noResultsMsg_ne_nil intent⟩
    | PyRes.resultsObj none => exact absurd rfl hshape
    | PyRes.resultsObj (some []) => exact ⟨noResultsMsg intent, rfl, noResultsMsg_ne_nil intent⟩
    | PyRes.resultsObj (some (b :: bs)) =>
      rcases hintent with rfl | rfl | rfl | rfl
      · exact ⟨healthRows (b :: bs), rfl, healthRows_ne_nil _⟩
      · exact ⟨waterRows (b :: bs), rfl, waterRows_ne_nil _⟩
      · exact ⟨campRows (b :: bs), rfl, campRows_ne_nil _⟩
      · exact ⟨aidRows (b :: bs), rfl, aidRows_ne_nil _⟩

/-- C4 witness: absent results under a recognized template name yield the
fixed non-empty fallback. -/
theorem C4_format_query_results_amended_witness :
    ∃ s, format_query_results PyRes.noRes ("query_health_facilities_swa".data)
        = Except.ok s ∧ s ≠ [] :=
  (C4_format_query_results_amended PyRes.noRes ("query_health_facilities_swa".data)).1
    (Or.inl rfl)

/-! ## Lemmas for the recognizer (C9, C10) -/

theorem pyFind_lt {hay needle : List Char} {i : Nat} (hne : needle ≠ [])
    (h : pyFind hay needle = some i) : i < hay.length := by
  induction hay generalizing i with
  | nil =>
    simp only [pyFind] at h
    rw [if_neg (by simpa using hne)] at h
    exact absurd h (by simp)
  | cons c t ih =>
    simp only [pyFind] at h
    split at h
    · injection h with h0
      simp only [List.length_cons]
      omega
    · rw [Option.map_eq_some'] at h
      obtain ⟨i', hi', rfl⟩ := h
      have := ih hi'
      simp only [List.length_cons]
      omega

theorem pyRfindChar_lt {l : List Char} {c : Char} {i : Nat}
    (h : pyRfindChar l c = some i) : i < l.length := by
  induction l generalizing i with
  | nil => exact absurd h (by simp [pyRfindChar])
  | cons a t ih =>
    simp only [pyRfindChar] at h
    split at h
    · injection h with h0
      subst h0
      have := ih (by assumption)
      simp only [List.length_cons]
      omega
    · split at h
      · injection h with h0
        simp only [List.length_cons]
        omega
      · exact absurd h (by simp)

theorem pyFindFrom_lt {hay needle : List Char} {start j : Nat} (hne : needle ≠ [])
    (h : pyFindFrom hay needle start = some j) : j < hay.length := by
  unfold pyFindFrom at h
  rw [Option.map_eq_some'] at h
  obtain ⟨i, hi, rfl⟩ := h
  have hlt := pyFind_lt hne hi
  rw [List.length_drop] at hlt
  omega

theorem pyFindFrom_ge {hay needle : List Char} {start j : Nat}
    (h : pyFindFrom hay needle start = some j) : start ≤ j := by
  unfold pyFindFrom at h
  rw [Option.map_eq_some'] at h
  obtain ⟨i, hi, rfl⟩ := h
  omega

/-- Every entity a keyword scan emits has its span inside the text: the
left widening stays at or before the keyword position and the right
widening stays at or after it and inside the text, so the Python slice and
index arithmetic are always in range. -/
theorem keywordEntities_bounds {text tl etype kw : List Char}
    (hlen : tl.length = text.length) (hkw : kw ≠ []) :
    ∀ e ∈ keywordEntities text tl etype kw, e.start ≤ e.stop ∧ e.stop ≤ text.length := by
  intro e he
  simp only [keywordEntities] at he
  split at he
  · exact absurd he (by simp)
  · rename_i pos hpos
    rw [List.mem_singleton] at he
    subst he
    simp only
    have hposlt : pos < tl.length := pyFind_lt hkw hpos
    cases hA : pyRfindChar (tl.take pos) ' ' <;>
      cases hB : pyFindFrom tl (" ".data) (pos + kw.length) <;>
        simp only [hA, hB]
    · omega
    · rename_i j
      have := pyFindFrom_lt (by decide) hB
      omega
    · rename_i i
      have hia : i < pos := by
        have h := pyRfindChar_lt hA
        rw [List.length_take] at h
        exact lt_of_lt_of_le h (min_le_left _ _)
      exact ⟨Nat.succ_le_of_lt (lt_trans hia hposlt), le_of_eq hlen⟩
    · rename_i i j
      have hia : i < pos := by
        have h := pyRfindChar_lt hA
        rw [List.length_take] at h
        exact lt_of_lt_of_le h (min_le_left _ _)
      have h2 := pyFindFrom_ge hB
      have h3 := pyFindFrom_lt (by decide) hB
      refine ⟨Nat.succ_le_of_lt (lt_of_lt_of_le hia ?_), hlen ▸ le_of_lt h3⟩
      exact le_trans (le_trans (Nat.le_add_right pos kw.length) h2) (le_refl _)

theorem fallbackMatch_bounds (text : List Char) :
    ∀ e ∈ fallbackMatch text, e.start ≤ e.stop ∧ e.stop ≤ text.length := by
  intro e he
  simp only [fallbackMatch] at he
  rw [List.mem_flatMap] at he
  obtain ⟨p, hp, he2⟩ := he
  rw [List.mem_flatMap] at he2
  obtain ⟨kw, hkw, he3⟩ := he2
  have hall : ∀ p ∈ patterns, ∀ k ∈ p.2, k ≠ [] := by decide
  have hne : kw ≠ [] := hall p hp kw hkw
  exact keywordEntities_bounds (by simp [pyLower]) hne e he3

/-- C9: with no external entities the recognizer is total on every input —
each emitted entity's span indices are in range for the text, so none of
the slicing or index arithmetic can fail — and the empty string yields the
empty entity list. -/
theorem C9_recognize_entities_total (text : List Char) :
    (∀ e ∈ recognize_entities text none, e.start ≤ e.stop ∧ e.stop ≤ text.length)
    ∧ recognize_entities [] none = [] := by
  refine ⟨?_, by decide⟩
  intro e he
  exact fallbackMatch_bounds text e he

/-- C9 witness: on `"hospitali iko karibu na goma"` the recognizer emits
the `health_facility` entity `"hospitali"` with an in-range span. -/
theorem C9_recognize_entities_total_witness :
    ({ type := "health_facility".data, value := "hospitali".data, start := 0, stop := 9 }
        : Entity).start
      ≤ ({ type := "health_facility".data, value := "hospitali".data, start := 0, stop := 9 }
        : Entity).stop
    ∧ ({ type := "health_facility".data, value := "hospitali".data, start := 0, stop := 9 }
        : Entity).stop ≤ ("hospitali iko karibu na goma".data).length :=
  (C9_recognize_entities_total ("hospitali iko karibu na goma".data)).1 _ (by decide)

/-- C10: a non-empty external entity list in which no item carries both an
`entity` and a `value` key is ignored: the recognizer falls through to the
same keyword pattern matching it performs with no external entities. -/
theorem C10_external_entities_without_keys (text : List Char) (res : List RasaEnt)
    (hne : res ≠ []) (hall : ∀ r ∈ res, r.entity = none ∨ r.value = none) :
    recognize_entities text (some res) = recognize_entities text none := by
  have hfm : res.filterMap mapRasa = [] := by
    rw [List.filterMap_eq_nil_iff]
    intro r hr
    rcases hall r hr with h | h <;>
      cases he : r.entity <;> cases hv : r.value <;> simp_all [mapRasa]
  have hlen : 0 < res.length := List.length_pos.2 hne
  simp [recognize_entities, hlen, hfm]

/-- C10 witness: an external list with one item lacking the `entity` key
falls through to pattern matching. -/
theorem C10_external_entities_without_keys_witness :
    recognize_entities ("goma".data)
        (some [{ entity := none, value := some ("x".data), start := none, stop := none }])
      = recognize_entities ("goma".data) none :=
  C10_external_entities_without_keys _ _ (by decide) (by decide)
